import Mathlib

/-!
# Verification of the `requiem` HTTP orchestration layer

A shallow embedding of the core logic of `requiem` (tmont/requiem), a wrapper
around Node's `http.request`.  The embedding follows the shipped module
(`index.js`, the compiled form of `index.ts`): the redirect resolver
`followRedirects`, the response finalizer `responseHandler`, the event wiring
`wireRequestEvents`, request construction `createRequest`, transmission
`sendRequest`, and body buffering `requestBody`.

External collaborators (the transport primitive, Node's `URL` parser and
`JSON.stringify`) are passed as explicit function parameters, quantified over
in the theorems: the transport is a function from the issued options object to
the incoming response, URL resolution is `parseUrl : String → String → Option
String` (`new URL(location, base)` yielding `href`, `none` on a parse
failure).  JavaScript mutation of the caller's options object is made visible
by returning the post-call state of that object; the one-shot settlement of a
promise is modelled by an `Option`-valued cell that a later rejection cannot
overwrite.
-/

/-- Model of a JSON value, the payload type of the `bodyJson` option. -/
inductive Json where
  | null : Json
  | bool (b : Bool) : Json
  | num (n : Int) : Json
  | str (s : String) : Json
  | arr (elems : List Json) : Json
  | obj (fields : List (String × Json)) : Json

/-- Escaping of one character inside a JSON string literal (model of the
external `JSON.stringify` collaborator, at the granularity the claims need). -/
def jsonEscapeChar (c : Char) : String :=
  if c = '"' then "\\\""
  else if c = '\\' then "\\\\"
  else c.toString

/-- Escaping of a JSON string literal body. -/
def jsonEscape (s : String) : String :=
  String.join (s.toList.map jsonEscapeChar)

mutual

/-- Model of the external `JSON.stringify` collaborator. -/
def Json.stringify : Json → String
  | .null => "null"
  | .bool true => "true"
  | .bool false => "false"
  | .num n => toString n
  | .str s => "\"" ++ jsonEscape s ++ "\""
  | .arr elems => "[" ++ Json.stringifyList elems ++ "]"
  | .obj fields => "\x7b" ++ Json.stringifyFields fields ++ "\x7d"

/-- Comma-separated serialization of a JSON array's elements. -/
def Json.stringifyList : List Json → String
  | [] => ""
  | [j] => Json.stringify j
  | j :: rest => Json.stringify j ++ "," ++ Json.stringifyList rest

/-- Comma-separated serialization of a JSON object's fields. -/
def Json.stringifyFields : List (String × Json) → String
  | [] => ""
  | [(k, j)] => "\"" ++ jsonEscape k ++ "\":" ++ Json.stringify j
  | (k, j) :: rest =>
      "\"" ++ jsonEscape k ++ "\":" ++ Json.stringify j ++ "," ++ Json.stringifyFields rest

end

/-- The `followRedirects` option: the source checks `=== false` (redirects
disabled) and otherwise treats any defined value as the numeric maximum. -/
inductive FollowRedirectsOpt where
  | off : FollowRedirectsOpt
  | max (n : Nat) : FollowRedirectsOpt
deriving DecidableEq, Repr

/-- The `throwOnErrorResponse` option: a boolean or an exact status value. -/
inductive ThrowOnErrorOpt where
  | bool (b : Bool) : ThrowOnErrorOpt
  | exact (n : Nat) : ThrowOnErrorOpt
deriving DecidableEq, Repr

/-- The options object (`RequiemOptionsObject` in the source).  A JavaScript
field that may be absent is an `Option`; `none` models the field not being
present on the object. -/
structure RequiemOptionsObject where
  url : Option String := none
  host : Option String := none
  path : Option String := none
  pathname : Option String := none
  port : Option Nat := none
  protocol : Option String := none
  method : Option String := none
  timeout : Option Nat := none
  auth : Option String := none
  body : Option String := none
  bodyJson : Option Json := none
  followRedirects : Option FollowRedirectsOpt := none
  throwOnErrorResponse : Option ThrowOnErrorOpt := none

/-- `RequiemOptions`: either a bare URL string or an options object. -/
inductive RequiemOptions where
  | str (s : String) : RequiemOptions
  | obj (o : RequiemOptionsObject) : RequiemOptions

/-- `getObjectionsObject` (sic, the source's name): wraps a bare string as
`{url: <string>}`, returns an object argument unchanged (same reference). -/
def getObjectionsObject : RequiemOptions → RequiemOptionsObject
  | .str s => { url := some s }
  | .obj o => o

/-- The observable part of a transport-level incoming response: the status
code and the `Location` header (`res.headers.location`). -/
structure IncomingMessage where
  statusCode : Option Nat := none
  location : Option String := none
deriving DecidableEq, Repr

/-- A `RequiemResponse`: the incoming message augmented with the URL that
produced it (`createResponse` performs the augmentation). -/
structure RequiemResponse where
  statusCode : Option Nat := none
  location : Option String := none
  requestedUrl : String
deriving DecidableEq, Repr

/-- `createResponse(incoming, url)`: attach `requestedUrl` to a response. -/
def createResponse (incoming : IncomingMessage) (url : String) : RequiemResponse :=
  { statusCode := incoming.statusCode
    location := incoming.location
    requestedUrl := url }

/-- A `RequiemRequest`: the request handle tagged with the URL it targets. -/
structure RequiemRequest where
  requestedUrl : String
deriving DecidableEq, Repr

/-- The error codes of `RequiemError`. -/
inductive RequiemErrorCode where
  | Timeout : RequiemErrorCode
  | RequestAbort : RequiemErrorCode
  | TooManyRedirects : RequiemErrorCode
  | InvalidUrl : RequiemErrorCode
  | InvalidStatusCode : RequiemErrorCode
  | InvalidJsonBody : RequiemErrorCode
  | InvalidRedirectUrl : RequiemErrorCode
deriving DecidableEq, Repr

/-- A structured `RequiemError`: code, message and the optional request and
response context. -/
structure RequiemError where
  code : RequiemErrorCode
  message : String
  req : Option RequiemRequest := none
  res : Option RequiemResponse := none
deriving DecidableEq, Repr

/-- The process-wide default redirect limit. -/
def defaultFollowRedirects : Nat := 5

/-- The `maxDepth` computed inside `followRedirects`:
`typeof(options.followRedirects) !== 'undefined' ? options.followRedirects :
defaultFollowRedirects` (the `=== false` case has already returned). -/
def RequiemOptionsObject.maxDepth (o : RequiemOptionsObject) : Nat :=
  match o.followRedirects with
  | some (.max n) => n
  | _ => defaultFollowRedirects

/-- The `TooManyRedirects` message:
`"${urls[0]}" redirected too many times (max redirects: ${maxDepth})`. -/
def mkTooManyRedirectsMessage (firstUrl : String) (maxDepth : Nat) : String :=
  "\"" ++ firstUrl ++ "\" redirected too many times (max redirects: " ++
    toString maxDepth ++ ")"

/-- The options object built for a redirect hop: the source spreads the
original options, deletes `host`, `path`, `port` and `protocol` (but not
`pathname`), then overrides `url` with the resolved URL and `method` with
`'GET'`. -/
def redirectOptions (options : RequiemOptionsObject) (newUrl : String) :
    RequiemOptionsObject :=
  { options with
    host := none
    path := none
    port := none
    protocol := none
    url := some newUrl
    method := some "GET" }

/-- The redirect resolver `followRedirects(urls, res, options, depth)`.

`net` is the transport collaborator: it maps the options object of the issued
hop request to the incoming response of that request (the hop is issued with
`createRequest(newOptions)` / `req.end()`).  `parseUrl loc base` models
`new URL(loc, base).href`, `none` on a parse failure.

The source, in order: return `res` when `options.followRedirects === false`;
compute `maxDepth`; throw `TooManyRedirects` when `depth > maxDepth`; return
`res` when the response is not a redirect (`!statusCode || statusCode < 300
|| statusCode >= 400 || !location`, where `!x` is JavaScript falsiness: an
absent status, status `0`, an absent `Location` or an empty `Location`);
resolve `location` against the last visited URL, throwing
`InvalidRedirectUrl` on failure; issue the hop request and recurse with the
chain extended and `depth + 1`. -/
def followRedirects (net : RequiemOptionsObject → IncomingMessage)
    (parseUrl : String → String → Option String)
    (urls : List String) (res : RequiemResponse)
    (options : RequiemOptionsObject) (depth : Nat) :
    Except RequiemError RequiemResponse :=
  if options.followRedirects = some FollowRedirectsOpt.off then
    Except.ok res
  else if depth > options.maxDepth then
    Except.error
      { code := RequiemErrorCode.TooManyRedirects
        message := mkTooManyRedirectsMessage (urls.headD "") options.maxDepth
        req := none
        res := some res }
  else
    match res.statusCode, res.location with
    | some statusCode, some location =>
      if statusCode < 300 ∨ 400 ≤ statusCode ∨ location = "" then
        Except.ok res
      else
        match parseUrl location (urls.getLastD "") with
        | none =>
          Except.error
            { code := RequiemErrorCode.InvalidRedirectUrl
              message := "Invalid redirect URL: " ++ location
              req := none
              res := some res }
        | some newUrl =>
          followRedirects net parseUrl (urls ++ [newUrl])
            (createResponse (net (redirectOptions options newUrl)) newUrl)
            options (depth + 1)
    | _, _ => Except.ok res
termination_by options.maxDepth + 1 - depth
decreasing_by
  simp_wf
  omega

/-- A response is a non-redirect exactly when the source's stop guard fires:
absent or falsy status, status outside `[300, 400)`, or an absent or falsy
`Location` header. -/
def nonRedirectResponse (res : RequiemResponse) : Bool :=
  match res.statusCode, res.location with
  | some statusCode, some location =>
      decide (statusCode < 300 ∨ 400 ≤ statusCode ∨ location = "")
  | _, _ => true

/-- One claim's worth of head bookkeeping: appending a hop URL to a nonempty
chain does not change the chain's first element. -/
theorem headD_append_singleton (urls : List String) (x : String) (d : String)
    (h : urls ≠ []) : (urls ++ [x]).headD d = urls.headD d := by
  cases urls with
  | nil => exact absurd rfl h
  | cons a t => rfl

/-- Every `TooManyRedirects` failure produced by a run of `followRedirects`
cites the first URL of the chain it was started with and the configured
maximum, carries no request and carries some response.  Proved by induction
on the remaining depth budget. -/
theorem followRedirects_tooMany_shape
    (net : RequiemOptionsObject → IncomingMessage)
    (parseUrl : String → String → Option String)
    (options : RequiemOptionsObject)
    (hoff : options.followRedirects ≠ some FollowRedirectsOpt.off) :
    ∀ (k : Nat) (urls : List String) (res : RequiemResponse) (depth : Nat)
      (e : RequiemError),
      options.maxDepth + 1 - depth ≤ k → urls ≠ [] →
      followRedirects net parseUrl urls res options depth = Except.error e →
      e.code = RequiemErrorCode.TooManyRedirects →
      e.message = mkTooManyRedirectsMessage (urls.headD "") options.maxDepth ∧
        e.req = none ∧ e.res.isSome := by
  intro k
  induction k with
  | zero =>
    intro urls res depth e hk hne hrun _
    rw [followRedirects] at hrun
    rw [if_neg hoff] at hrun
    have hd : depth > options.maxDepth := by omega
    rw [if_pos hd] at hrun
    injection hrun with h
    subst h
    simp
  | succ k ih =>
    intro urls res depth e hk hne hrun hcode
    rw [followRedirects] at hrun
    rw [if_neg hoff] at hrun
    by_cases hd : depth > options.maxDepth
    · rw [if_pos hd] at hrun
      injection hrun with h
      subst h
      simp
    · rw [if_neg hd] at hrun
      obtain ⟨sc, loc, ru⟩ := res
      match sc, loc with
      | none, _ => simp at hrun
      | some statusCode, none => simp at hrun
      | some statusCode, some location =>
        simp only at hrun
        by_cases hguard : statusCode < 300 ∨ 400 ≤ statusCode ∨ location = ""
        · rw [if_pos hguard] at hrun
          simp at hrun
        · rw [if_neg hguard] at hrun
          cases hp : parseUrl location (urls.getLastD "") with
          | none =>
            rw [hp] at hrun
            injection hrun with h
            subst h
            simp at hcode
          | some newUrl =>
            rw [hp] at hrun
            have hres := ih (urls ++ [newUrl])
              (createResponse (net (redirectOptions options newUrl)) newUrl)
              (depth + 1) e (by omega) (by simp) hrun hcode
            rwa [headD_append_singleton urls newUrl "" hne] at hres

/-- Helper shared by the redirect-stop theorems: a non-redirect response is
returned unchanged whenever redirect following is disabled (`false`) or the
depth has not yet exceeded the configured maximum. -/
theorem followRedirects_stops_nonRedirect
    (net : RequiemOptionsObject → IncomingMessage)
    (parseUrl : String → String → Option String)
    (urls : List String) (res : RequiemResponse)
    (options : RequiemOptionsObject) (depth : Nat)
    (hres : nonRedirectResponse res = true)
    (h : options.followRedirects = some FollowRedirectsOpt.off ∨
      depth ≤ options.maxDepth) :
    followRedirects net parseUrl urls res options depth = Except.ok res := by
  rw [followRedirects]
  by_cases hoff : options.followRedirects = some FollowRedirectsOpt.off
  · rw [if_pos hoff]
  · rw [if_neg hoff]
    have hd : ¬ depth > options.maxDepth := by
      rcases h with h | h
      · exact absurd h hoff
      · omega
    rw [if_neg hd]
    obtain ⟨sc, loc, ru⟩ := res
    match sc, loc with
    | none, none => rfl
    | none, some _ => rfl
    | some statusCode, none => rfl
    | some statusCode, some location =>
      simp only [nonRedirectResponse, decide_eq_true_eq] at hres
      simp only
      rw [if_pos hres]

/-- C1: for every redirect chain, once the depth exceeds the configured
maximum (default 5 when `followRedirects` is unset) the resolver fails with
`TooManyRedirects`, the message cites the first URL of the chain and the
configured maximum, and the error carries the latest response (and no
request); any such failure arising from a full run started on the original
URL cites that original URL; and the error propagates unchanged through
`responseHandler`'s redirect stage (stated below via the depth-exceeded
step and the run-level invariant). -/
theorem tooManyRedirects_cites_first_url_and_max :
    (∀ (net : RequiemOptionsObject → IncomingMessage)
       (parseUrl : String → String → Option String)
       (urls : List String) (res : RequiemResponse)
       (options : RequiemOptionsObject) (depth : Nat),
       options.followRedirects ≠ some FollowRedirectsOpt.off →
       options.maxDepth < depth →
       followRedirects net parseUrl urls res options depth =
         Except.error
           { code := RequiemErrorCode.TooManyRedirects
             message := mkTooManyRedirectsMessage (urls.headD "") options.maxDepth
             req := none
             res := some res }) ∧
    (∀ options : RequiemOptionsObject,
       options.followRedirects = none → options.maxDepth = 5) ∧
    (∀ (net : RequiemOptionsObject → IncomingMessage)
       (parseUrl : String → String → Option String)
       (firstUrl : String) (res : RequiemResponse)
       (options : RequiemOptionsObject) (e : RequiemError),
       options.followRedirects ≠ some FollowRedirectsOpt.off →
       followRedirects net parseUrl [firstUrl] res options 0 = Except.error e →
       e.code = RequiemErrorCode.TooManyRedirects →
       e.message = mkTooManyRedirectsMessage firstUrl options.maxDepth ∧
         e.req = none ∧ e.res.isSome) := by
  refine ⟨?_, ?_, ?_⟩
  · intro net parseUrl urls res options depth hoff hd
    rw [followRedirects, if_neg hoff, if_pos (by omega : depth > options.maxDepth)]
  · intro options h
    simp [RequiemOptionsObject.maxDepth, h, defaultFollowRedirects]
  · intro net parseUrl firstUrl res options e hoff hrun hcode
    have := followRedirects_tooMany_shape net parseUrl options hoff
      (options.maxDepth + 1) [firstUrl] res 0 e (by omega) (by simp) hrun hcode
    simpa using this

/-- Witness for C1: evaluated at a single-hop chain with `followRedirects: 0`
whose only response is a redirect to a resolvable location. -/
theorem tooManyRedirects_cites_first_url_and_max_witness :
    (followRedirects (fun _ => { statusCode := some 302, location := some "/n" })
        (fun _ _ => some "http://h/n") ["http://h/a"]
        { statusCode := some 302, location := some "/n", requestedUrl := "http://h/a" }
        { followRedirects := some (FollowRedirectsOpt.max 0) } 1 =
      Except.error
        { code := RequiemErrorCode.TooManyRedirects
          message := "\"http://h/a\" redirected too many times (max redirects: 0)"
          req := none
          res := some { statusCode := some 302, location := some "/n",
                        requestedUrl := "http://h/a" } }) ∧
    RequiemOptionsObject.maxDepth {} = 5 ∧
    ("\"http://h/a\" redirected too many times (max redirects: 0)" =
        mkTooManyRedirectsMessage "http://h/a" 0 ∧
      (none : Option RequiemRequest) = none ∧
      (some { statusCode := some 302, location := some "/n",
              requestedUrl := "http://h/n" } : Option RequiemResponse).isSome) := by
  refine ⟨?_, ?_, ?_⟩
  · have h := tooManyRedirects_cites_first_url_and_max.1
      (fun _ => { statusCode := some 302, location := some "/n" })
      (fun _ _ => some "http://h/n") ["http://h/a"]
      { statusCode := some 302, location := some "/n", requestedUrl := "http://h/a" }
      { followRedirects := some (FollowRedirectsOpt.max 0) } 1
      (by decide) (by decide)
    have hm : mkTooManyRedirectsMessage "http://h/a" 0 =
        "\"http://h/a\" redirected too many times (max redirects: 0)" := rfl
    simpa [RequiemOptionsObject.maxDepth, hm] using h
  · exact tooManyRedirects_cites_first_url_and_max.2.1 {} rfl
  · exact tooManyRedirects_cites_first_url_and_max.2.2
      (fun _ => { statusCode := some 302, location := some "/n" })
      (fun _ _ => some "http://h/n") "http://h/a"
      { statusCode := some 302, location := some "/n", requestedUrl := "http://h/a" }
      { followRedirects := some (FollowRedirectsOpt.max 0) }
      { code := RequiemErrorCode.TooManyRedirects
        message := "\"http://h/a\" redirected too many times (max redirects: 0)"
        req := none
        res := some { statusCode := some 302, location := some "/n",
                      requestedUrl := "http://h/n" } }
      (by decide)
      (by simp [followRedirects, mkTooManyRedirectsMessage,
            RequiemOptionsObject.maxDepth, redirectOptions, createResponse]
          rfl)
      rfl

/-- C2 (amended): a non-redirect response (absent status, status outside
`[300,400)`, or missing/empty `Location`) is returned unchanged whenever
redirect following is disabled or the depth does not exceed the configured
maximum.  As stated in the claim — for every depth, including depths greater
than the maximum — the property fails, because the depth check precedes the
redirect check (see the counterexample). -/
theorem nonRedirect_unchanged_within_depth
    (net : RequiemOptionsObject → IncomingMessage)
    (parseUrl : String → String → Option String)
    (urls : List String) (res : RequiemResponse)
    (options : RequiemOptionsObject) (depth : Nat)
    (hres : nonRedirectResponse res = true)
    (h : options.followRedirects = some FollowRedirectsOpt.off ∨
      depth ≤ options.maxDepth) :
    followRedirects net parseUrl urls res options depth = Except.ok res :=
  followRedirects_stops_nonRedirect net parseUrl urls res options depth hres h

/-- Witness for C2 (amended): a `200` response with no `Location` at depth 5
under the default maximum is returned unchanged. -/
theorem nonRedirect_unchanged_within_depth_witness :
    nonRedirectResponse
        { statusCode := some 200, location := none, requestedUrl := "http://original/" } =
      true ∧
    followRedirects (fun _ => {}) (fun _ _ => none) ["http://original/"]
        { statusCode := some 200, location := none, requestedUrl := "http://original/" }
        {} 5 =
      Except.ok
        { statusCode := some 200, location := none, requestedUrl := "http://original/" } :=
  ⟨by decide,
    nonRedirect_unchanged_within_depth (fun _ => {}) (fun _ _ => none)
      ["http://original/"]
      { statusCode := some 200, location := none, requestedUrl := "http://original/" }
      {} 5 (by decide) (Or.inr (by decide))⟩

/-- Counterexample to C2 as stated: at depth 6 with the default maximum 5,
a plain `200` response with no `Location` header is *not* returned
unchanged — the resolver fails with `TooManyRedirects`, because the depth
check runs before the non-redirect check. -/
theorem nonRedirect_unchanged_regardless_of_depth_cex :
    followRedirects (fun _ => {}) (fun _ _ => none) ["http://original/"]
        { statusCode := some 200, location := none, requestedUrl := "http://original/" }
        {} 6 =
      Except.error
        { code := RequiemErrorCode.TooManyRedirects
          message := "\"http://original/\" redirected too many times (max redirects: 5)"
          req := none
          res := some { statusCode := some 200, location := none,
                        requestedUrl := "http://original/" } } ∧
    followRedirects (fun _ => {}) (fun _ _ => none) ["http://original/"]
        { statusCode := some 200, location := none, requestedUrl := "http://original/" }
        {} 6 ≠
      Except.ok
        { statusCode := some 200, location := none, requestedUrl := "http://original/" } := by
  have h : followRedirects (fun _ => {}) (fun _ _ => none) ["http://original/"]
      { statusCode := some 200, location := none, requestedUrl := "http://original/" }
      {} 6 =
    Except.error
      { code := RequiemErrorCode.TooManyRedirects
        message := "\"http://original/\" redirected too many times (max redirects: 5)"
        req := none
        res := some { statusCode := some 200, location := none,
                      requestedUrl := "http://original/" } } := by
    rw [followRedirects]
    norm_num [RequiemOptionsObject.maxDepth, defaultFollowRedirects,
      mkTooManyRedirectsMessage]
    rfl
  exact ⟨h, by rw [h]; exact fun hcon => Except.noConfusion hcon⟩

/-- C3: with `followRedirects: 0` the configured maximum is `0`, so the
original response is evaluated once — a non-redirect response is returned —
and any redirect response makes the call fail with `TooManyRedirects`: the
single permitted hop is issued, and its evaluation at depth `1 > 0` throws,
citing the original URL and the maximum `0` and carrying the hop's
response. -/
theorem followRedirects_zero_fails_on_any_redirect :
    (∀ (net : RequiemOptionsObject → IncomingMessage)
       (parseUrl : String → String → Option String)
       (firstUrl : String) (inc : IncomingMessage)
       (options : RequiemOptionsObject) (sc : Nat) (loc newUrl : String),
       options.followRedirects = some (FollowRedirectsOpt.max 0) →
       inc.statusCode = some sc → 300 ≤ sc → sc < 400 →
       inc.location = some loc → loc ≠ "" →
       parseUrl loc firstUrl = some newUrl →
       followRedirects net parseUrl [firstUrl] (createResponse inc firstUrl)
           options 0 =
         Except.error
           { code := RequiemErrorCode.TooManyRedirects
             message := mkTooManyRedirectsMessage firstUrl 0
             req := none
             res := some (createResponse (net (redirectOptions options newUrl))
                            newUrl) }) ∧
    (∀ (net : RequiemOptionsObject → IncomingMessage)
       (parseUrl : String → String → Option String)
       (firstUrl : String) (inc : IncomingMessage)
       (options : RequiemOptionsObject),
       options.followRedirects = some (FollowRedirectsOpt.max 0) →
       nonRedirectResponse (createResponse inc firstUrl) = true →
       followRedirects net parseUrl [firstUrl] (createResponse inc firstUrl)
           options 0 =
         Except.ok (createResponse inc firstUrl)) := by
  constructor
  · intro net parseUrl firstUrl inc options sc loc newUrl hopt hsc h300 h400 hloc hne hp
    have hmd : options.maxDepth = 0 := by
      simp [RequiemOptionsObject.maxDepth, hopt]
    have hoff : options.followRedirects ≠ some FollowRedirectsOpt.off := by
      simp [hopt]
    have hguard : ¬ (sc < 300 ∨ 400 ≤ sc ∨ loc = "") := by
      push_neg
      exact ⟨by omega, by omega, hne⟩
    have hcr : createResponse inc firstUrl =
        { statusCode := some sc, location := some loc, requestedUrl := firstUrl } := by
      simp [createResponse, hsc, hloc]
    rw [followRedirects, if_neg hoff, hmd]
    rw [if_neg (by omega : ¬ (0 : Nat) > 0)]
    rw [hcr]
    dsimp only
    rw [if_neg hguard]
    rw [show ([firstUrl].getLastD "") = firstUrl from rfl, hp]
    dsimp only
    rw [followRedirects, if_neg hoff, hmd]
    rw [if_pos (by omega : 0 + 1 > 0)]
    simp
  · intro net parseUrl firstUrl inc options hopt hres
    exact followRedirects_stops_nonRedirect net parseUrl [firstUrl]
      (createResponse inc firstUrl) options 0 hres
      (Or.inr (by simp [RequiemOptionsObject.maxDepth, hopt]))

/-- Witness for C3: a `302` with `Location: /n` under `followRedirects: 0`
fails with `TooManyRedirects` carrying the hop's response, while a plain
`200` is returned unchanged. -/
theorem followRedirects_zero_fails_on_any_redirect_witness :
    followRedirects (fun _ => { statusCode := some 302, location := some "/n" })
        (fun _ _ => some "http://h/n") ["http://h/a"]
        (createResponse { statusCode := some 302, location := some "/n" } "http://h/a")
        { followRedirects := some (FollowRedirectsOpt.max 0) } 0 =
      Except.error
        { code := RequiemErrorCode.TooManyRedirects
          message := mkTooManyRedirectsMessage "http://h/a" 0
          req := none
          res := some (createResponse
            ((fun _ => { statusCode := some 302, location := some "/n" })
              (redirectOptions { followRedirects := some (FollowRedirectsOpt.max 0) }
                "http://h/n"))
            "http://h/n") } ∧
    followRedirects (fun _ => { statusCode := some 302, location := some "/n" })
        (fun _ _ => some "http://h/n") ["http://h/a"]
        (createResponse { statusCode := some 200 } "http://h/a")
        { followRedirects := some (FollowRedirectsOpt.max 0) } 0 =
      Except.ok (createResponse { statusCode := some 200 } "http://h/a") :=
  ⟨followRedirects_zero_fails_on_any_redirect.1
      (fun _ => { statusCode := some 302, location := some "/n" })
      (fun _ _ => some "http://h/n") "http://h/a"
      { statusCode := some 302, location := some "/n" }
      { followRedirects := some (FollowRedirectsOpt.max 0) }
      302 "/n" "http://h/n" rfl rfl (by decide) (by decide) rfl (by decide) rfl,
    followRedirects_zero_fails_on_any_redirect.2
      (fun _ => { statusCode := some 302, location := some "/n" })
      (fun _ _ => some "http://h/n") "http://h/a"
      { statusCode := some 200 }
      { followRedirects := some (FollowRedirectsOpt.max 0) }
      rfl (by decide)⟩

/-- C4: with `followRedirects: false` redirect following is disabled: the
source returns the response untouched before the depth check and before the
redirect check, so any response — in particular a redirect response — is
handed back as-is, no error is raised, and the outcome does not depend on
the transport (no further request is issued). -/
theorem followRedirects_false_returns_response_as_is
    (net : RequiemOptionsObject → IncomingMessage)
    (parseUrl : String → String → Option String)
    (urls : List String) (res : RequiemResponse)
    (options : RequiemOptionsObject) (depth : Nat)
    (h : options.followRedirects = some FollowRedirectsOpt.off) :
    followRedirects net parseUrl urls res options depth = Except.ok res := by
  rw [followRedirects, if_pos h]

/-- Witness for C4: a `302` with a `Location` header is returned as-is under
`followRedirects: false`. -/
theorem followRedirects_false_returns_response_as_is_witness :
    followRedirects (fun _ => { statusCode := some 500 }) (fun _ _ => none)
        ["http://h/a"]
        { statusCode := some 302, location := some "/x", requestedUrl := "http://h/a" }
        { followRedirects := some FollowRedirectsOpt.off } 0 =
      Except.ok
        { statusCode := some 302, location := some "/x", requestedUrl := "http://h/a" } :=
  followRedirects_false_returns_response_as_is
    (fun _ => { statusCode := some 500 }) (fun _ _ => none) ["http://h/a"]
    { statusCode := some 302, location := some "/x", requestedUrl := "http://h/a" }
    { followRedirects := some FollowRedirectsOpt.off } 0 rfl

/-- C5: on a redirect hop within the depth budget, the `Location` value is
resolved against the most recently visited URL of the chain (its last
element); a resolution failure yields `InvalidRedirectUrl` carrying the
latest response; a successful resolution re-enters the resolver on the
response of a request issued with the original options stripped of `host`,
`path`, `port` and `protocol`, with `url` replaced by the resolved URL and
`method` forced to `GET`, the chain extended by the resolved URL and the
depth incremented. -/
theorem redirect_hop_resolution_and_reissue :
    (∀ (net : RequiemOptionsObject → IncomingMessage)
       (parseUrl : String → String → Option String)
       (urls : List String) (res : RequiemResponse)
       (options : RequiemOptionsObject) (depth sc : Nat) (loc : String),
       options.followRedirects ≠ some FollowRedirectsOpt.off →
       depth ≤ options.maxDepth →
       res.statusCode = some sc → 300 ≤ sc → sc < 400 →
       res.location = some loc → loc ≠ "" →
       parseUrl loc (urls.getLastD "") = none →
       followRedirects net parseUrl urls res options depth =
         Except.error
           { code := RequiemErrorCode.InvalidRedirectUrl
             message := "Invalid redirect URL: " ++ loc
             req := none
             res := some res }) ∧
    (∀ (net : RequiemOptionsObject → IncomingMessage)
       (parseUrl : String → String → Option String)
       (urls : List String) (res : RequiemResponse)
       (options : RequiemOptionsObject) (depth sc : Nat) (loc newUrl : String),
       options.followRedirects ≠ some FollowRedirectsOpt.off →
       depth ≤ options.maxDepth →
       res.statusCode = some sc → 300 ≤ sc → sc < 400 →
       res.location = some loc → loc ≠ "" →
       parseUrl loc (urls.getLastD "") = some newUrl →
       followRedirects net parseUrl urls res options depth =
         followRedirects net parseUrl (urls ++ [newUrl])
           (createResponse
             (net { options with
                    host := none
                    path := none
                    port := none
                    protocol := none
                    url := some newUrl
                    method := some "GET" }) newUrl)
           options (depth + 1)) := by
  constructor
  · intro net parseUrl urls res options depth sc loc hoff hdep hsc h300 h400 hloc hne hp
    have hguard : ¬ (sc < 300 ∨ 400 ≤ sc ∨ loc = "") := by
      push_neg
      exact ⟨by omega, by omega, hne⟩
    have hcr : res = { statusCode := some sc, location := some loc,
                       requestedUrl := res.requestedUrl } := by
      obtain ⟨a, b, c⟩ := res
      simp_all
    rw [followRedirects, if_neg hoff]
    rw [if_neg (by omega : ¬ depth > options.maxDepth)]
    rw [hcr]
    dsimp only
    rw [if_neg hguard, hp]
  · intro net parseUrl urls res options depth sc loc newUrl hoff hdep hsc h300 h400 hloc hne hp
    have hguard : ¬ (sc < 300 ∨ 400 ≤ sc ∨ loc = "") := by
      push_neg
      exact ⟨by omega, by omega, hne⟩
    have hcr : res = { statusCode := some sc, location := some loc,
                       requestedUrl := res.requestedUrl } := by
      obtain ⟨a, b, c⟩ := res
      simp_all
    rw [followRedirects, if_neg hoff]
    rw [if_neg (by omega : ¬ depth > options.maxDepth)]
    rw [hcr]
    dsimp only
    rw [if_neg hguard, hp]
    dsimp only [redirectOptions]

/-- Witness for C5: both hop behaviours at concrete inputs — an unresolvable
`Location` yields `InvalidRedirectUrl`, and a resolvable one re-enters the
resolver on the reissued request's response with the chain extended. -/
theorem redirect_hop_resolution_and_reissue_witness :
    (followRedirects (fun _ => {}) (fun _ _ => none) ["http://h/a", "http://h/b"]
        { statusCode := some 301, location := some "/x", requestedUrl := "http://h/b" }
        {} 0 =
      Except.error
        { code := RequiemErrorCode.InvalidRedirectUrl
          message := "Invalid redirect URL: " ++ "/x"
          req := none
          res := some { statusCode := some 301, location := some "/x",
                        requestedUrl := "http://h/b" } }) ∧
    (followRedirects (fun _ => { statusCode := some 200 })
        (fun loc base => some (base ++ loc)) ["http://h/a", "http://h/b"]
        { statusCode := some 301, location := some "/x", requestedUrl := "http://h/b" }
        {} 0 =
      followRedirects (fun _ => { statusCode := some 200 })
        (fun loc base => some (base ++ loc))
        ["http://h/a", "http://h/b", "http://h/b/x"]
        (createResponse { statusCode := some 200 } "http://h/b/x")
        {} 1) := by
  constructor
  · exact redirect_hop_resolution_and_reissue.1 (fun _ => {}) (fun _ _ => none)
      ["http://h/a", "http://h/b"]
      { statusCode := some 301, location := some "/x", requestedUrl := "http://h/b" }
      {} 0 301 "/x" (by decide) (by decide) rfl (by decide) (by decide) rfl
      (by decide) rfl
  · have h := redirect_hop_resolution_and_reissue.2
      (fun _ => { statusCode := some 200 }) (fun loc base => some (base ++ loc))
      ["http://h/a", "http://h/b"]
      { statusCode := some 301, location := some "/x", requestedUrl := "http://h/b" }
      {} 0 301 "/x" "http://h/b/x" (by decide) (by decide) rfl (by decide)
      (by decide) rfl (by decide) rfl
    simpa using h

/-- The events a wired request can receive: a raw transport `error`, a
`timeout`, an `abort`. -/
inductive WireEvent where
  | error (e : String) : WireEvent
  | timeout : WireEvent
  | abort : WireEvent
deriving DecidableEq, Repr

/-- What the `reject` continuation of `wireRequestEvents` is called with:
either the raw transport error, surfaced unwrapped, or a constructed
`RequiemError`. -/
inductive WireOutcome where
  | rawError (e : String) : WireOutcome
  | requiemError (e : RequiemError) : WireOutcome
deriving DecidableEq, Repr

/-- One-shot promise settlement: rejecting an already-settled promise is a
no-op. -/
def rejectOnce (settled : Option WireOutcome) (o : WireOutcome) : Option WireOutcome :=
  match settled with
  | some x => some x
  | none => some o

/-- The state visible to the handlers installed by `wireRequestEvents`: the
`timedOut` and `rejected` flags, the request's `aborted` flag, and the
promise cell that the `reject` continuation settles. -/
structure WireState where
  timedOut : Bool := false
  rejected : Bool := false
  aborted : Bool := false
  settled : Option WireOutcome := none
deriving DecidableEq, Repr

/-- The timeout-limit label in the `Timeout` message:
`'timeout' in options ? timeout + 'ms' : 'node default'`. -/
def timeoutLabel (options : RequiemOptionsObject) : String :=
  match options.timeout with
  | some t => toString t ++ "ms"
  | none => "node default"

/-- The handlers installed by `wireRequestEvents(req, options, reject)`, as a
state transition per delivered event.  `error` calls `reject` with the raw
error (no `rejected` bookkeeping in the source — the promise's one-shot
settlement is what prevents a double outcome).  `timeout` sets `timedOut`
and calls `req.abort()` if the request is not yet aborted.  `abort` returns
early when `rejected` is already set, otherwise sets it and rejects with
`Timeout` (when `timedOut`) or `RequestAbort`. -/
def wireRequestEventsStep (req : RequiemRequest) (options : RequiemOptionsObject)
    (s : WireState) : WireEvent → WireState
  | .error e => { s with settled := rejectOnce s.settled (WireOutcome.rawError e) }
  | .timeout => { s with timedOut := true, aborted := true }
  | .abort =>
    if s.rejected then s
    else
      { s with
        rejected := true
        settled := rejectOnce s.settled (WireOutcome.requiemError
          (if s.timedOut then
            { code := RequiemErrorCode.Timeout
              message := "Reached timeout limit (" ++ timeoutLabel options ++
                "), request aborted"
              req := some req
              res := none }
          else
            { code := RequiemErrorCode.RequestAbort
              message := "Request was aborted"
              req := some req
              res := none })) }

/-- A run of the wired handlers over a sequence of delivered events,
starting from the freshly wired state. -/
def wireRequestEventsRun (req : RequiemRequest) (options : RequiemOptionsObject)
    (events : List WireEvent) : WireState :=
  events.foldl (wireRequestEventsStep req options) {}

/-- Invariant of every reachable wire state: if the `rejected` flag is set,
the promise has been settled. -/
theorem wireRun_rejected_settled (req : RequiemRequest)
    (options : RequiemOptionsObject) (events : List WireEvent) :
    (wireRequestEventsRun req options events).rejected = true →
    (wireRequestEventsRun req options events).settled.isSome := by
  suffices h : ∀ (s : WireState), (s.rejected = true → s.settled.isSome) →
      ((events.foldl (wireRequestEventsStep req options) s).rejected = true →
        (events.foldl (wireRequestEventsStep req options) s).settled.isSome) by
    exact h {} (by simp)
  induction events with
  | nil => intro s hs; simpa using hs
  | cons ev rest ih =>
    intro s hs
    simp only [List.foldl_cons]
    refine ih (wireRequestEventsStep req options s ev) ?_
    cases ev with
    | error e =>
      intro _
      simp [wireRequestEventsStep, rejectOnce]
      cases s.settled <;> simp
    | timeout =>
      intro h
      simp only [wireRequestEventsStep] at h ⊢
      exact hs h
    | abort =>
      by_cases hr : s.rejected
      · simp [wireRequestEventsStep, hr]
        exact hs hr
      · simp [wireRequestEventsStep, hr, rejectOnce]
        cases s.settled <;> simp

/-- The `timedOut` flag of a reachable wire state is set exactly when a
`timeout` event has been delivered. -/
theorem wireRun_timedOut_iff (req : RequiemRequest)
    (options : RequiemOptionsObject) (events : List WireEvent) :
    (wireRequestEventsRun req options events).timedOut = true ↔
      WireEvent.timeout ∈ events := by
  suffices h : ∀ (s : WireState),
      ((events.foldl (wireRequestEventsStep req options) s).timedOut = true ↔
        (s.timedOut = true ∨ WireEvent.timeout ∈ events)) by
    rw [wireRequestEventsRun, h {}]
    simp
  induction events with
  | nil => intro s; simp
  | cons ev rest ih =>
    intro s
    simp only [List.foldl_cons]
    rw [ih (wireRequestEventsStep req options s ev)]
    cases ev with
    | error e => simp [wireRequestEventsStep]
    | timeout => simp [wireRequestEventsStep]
    | abort =>
      by_cases hr : s.rejected <;> simp [wireRequestEventsStep, hr]

/-- C6: an `abort` event settles the outcome at most once — a settled
promise is never overwritten by any later event, and a repeated `abort` on a
rejected state is a no-op; on an unsettled reachable state, `abort` settles
with `Timeout` (message naming the configured timeout value, or the
`node default` label when none was configured) exactly when the timed-out
flag is set, and with `RequestAbort` (`Request was aborted`) otherwise; the
timed-out flag of a reachable state is set exactly when a prior `timeout`
event was delivered. -/
theorem abort_settles_once_timeout_or_requestAbort :
    (∀ (req : RequiemRequest) (options : RequiemOptionsObject) (s : WireState)
       (ev : WireEvent) (o : WireOutcome),
       s.settled = some o →
       (wireRequestEventsStep req options s ev).settled = some o) ∧
    (∀ (req : RequiemRequest) (options : RequiemOptionsObject) (s : WireState),
       s.rejected = true →
       wireRequestEventsStep req options s WireEvent.abort = s) ∧
    (∀ (req : RequiemRequest) (options : RequiemOptionsObject)
       (events : List WireEvent),
       (wireRequestEventsRun req options events).settled = none →
       (wireRequestEventsStep req options (wireRequestEventsRun req options events)
           WireEvent.abort).settled =
         some (WireOutcome.requiemError
           (if (wireRequestEventsRun req options events).timedOut then
             { code := RequiemErrorCode.Timeout
               message := "Reached timeout limit (" ++ timeoutLabel options ++
                 "), request aborted"
               req := some req
               res := none }
           else
             { code := RequiemErrorCode.RequestAbort
               message := "Request was aborted"
               req := some req
               res := none }))) ∧
    (∀ (req : RequiemRequest) (options : RequiemOptionsObject)
       (events : List WireEvent),
       (wireRequestEventsRun req options events).timedOut = true ↔
         WireEvent.timeout ∈ events) := by
  refine ⟨?_, ?_, ?_, ?_⟩
  · intro req options s ev o hset
    cases ev with
    | error e => simp [wireRequestEventsStep, hset, rejectOnce]
    | timeout => simpa [wireRequestEventsStep] using hset
    | abort =>
      by_cases hr : s.rejected
      · simpa [wireRequestEventsStep, hr] using hset
      · simp [wireRequestEventsStep, hr, hset, rejectOnce]
  · intro req options s hr
    simp [wireRequestEventsStep, hr]
  · intro req options events hset
    have hr : (wireRequestEventsRun req options events).rejected = false := by
      by_contra h
      have := wireRun_rejected_settled req options events
        (by simpa using eq_true_of_ne_false fun hf => h hf)
      rw [hset] at this
      simp at this
    simp [wireRequestEventsStep, hr, hset, rejectOnce]
  · exact wireRun_timedOut_iff

/-- Witness for C6: a settled state is not overwritten by a later `abort`; a
rejected state absorbs a repeated `abort`; after `[timeout]` an `abort`
settles with the `Timeout` error naming the configured `100ms`, and after no
events an `abort` settles with `RequestAbort`; and the timed-out flag holds
for `[timeout]`. -/
theorem abort_settles_once_timeout_or_requestAbort_witness :
    ((wireRequestEventsStep { requestedUrl := "http://h/" } {}
        { settled := some (WireOutcome.rawError "boom") } WireEvent.abort).settled =
      some (WireOutcome.rawError "boom")) ∧
    (wireRequestEventsStep { requestedUrl := "http://h/" } {}
        { rejected := true } WireEvent.abort = { rejected := true }) ∧
    ((wireRequestEventsStep { requestedUrl := "http://h/" } { timeout := some 100 }
        (wireRequestEventsRun { requestedUrl := "http://h/" } { timeout := some 100 }
          [WireEvent.timeout]) WireEvent.abort).settled =
      some (WireOutcome.requiemError
        { code := RequiemErrorCode.Timeout
          message := "Reached timeout limit (100ms), request aborted"
          req := some { requestedUrl := "http://h/" }
          res := none })) ∧
    ((wireRequestEventsStep { requestedUrl := "http://h/" } {}
        (wireRequestEventsRun { requestedUrl := "http://h/" } {} []) WireEvent.abort).settled =
      some (WireOutcome.requiemError
        { code := RequiemErrorCode.RequestAbort
          message := "Request was aborted"
          req := some { requestedUrl := "http://h/" }
          res := none })) ∧
    ((wireRequestEventsRun { requestedUrl := "http://h/" } {} [WireEvent.timeout]).timedOut =
      true) := by
  refine ⟨?_, ?_, ?_, ?_, ?_⟩
  · exact abort_settles_once_timeout_or_requestAbort.1
      { requestedUrl := "http://h/" } {} { settled := some (WireOutcome.rawError "boom") }
      WireEvent.abort (WireOutcome.rawError "boom") rfl
  · exact abort_settles_once_timeout_or_requestAbort.2.1
      { requestedUrl := "http://h/" } {} { rejected := true } rfl
  · have h := abort_settles_once_timeout_or_requestAbort.2.2.1
      { requestedUrl := "http://h/" } { timeout := some 100 } [WireEvent.timeout]
      (by decide)
    rw [h]
    have ht : (wireRequestEventsRun { requestedUrl := "http://h/" }
        { timeout := some 100 } [WireEvent.timeout]).timedOut = true := by decide
    rw [ht]
    have hm : timeoutLabel { timeout := some 100 } = "100ms" := rfl
    simp [hm]
  · have h := abort_settles_once_timeout_or_requestAbort.2.2.1
      { requestedUrl := "http://h/" } {} [] (by decide)
    rw [h]
    decide
  · exact (abort_settles_once_timeout_or_requestAbort.2.2.2
      { requestedUrl := "http://h/" } {} [WireEvent.timeout]).mpr (by decide)

/-- `${result.statusCode}` inside a template literal: a present status prints
its number, an absent one prints `undefined`. -/
def statusCodeStr : Option Nat → String
  | some n => toString n
  | none => "undefined"

/-- `responseHandler(req, res, options)`: tag the incoming response with the
request's URL, run the redirect resolver on the chain `[req.requestedUrl]`
at depth 0, and then apply the status-validation policy to the settled
result: a numeric `throwOnErrorResponse` fails with `InvalidStatusCode`
unless the final status strictly equals it (message shows observed and
expected); a truthy boolean fails when the final status is present, truthy
and `>= 400` (message shows only the observed status); otherwise the result
is returned.  Failures carry the request and the final response. -/
def responseHandler (net : RequiemOptionsObject → IncomingMessage)
    (parseUrl : String → String → Option String)
    (req : RequiemRequest) (res : IncomingMessage)
    (options : RequiemOptionsObject) : Except RequiemError RequiemResponse :=
  match followRedirects net parseUrl [req.requestedUrl]
      (createResponse res req.requestedUrl) options 0 with
  | Except.error e => Except.error e
  | Except.ok result =>
    match options.throwOnErrorResponse with
    | some (ThrowOnErrorOpt.exact n) =>
      if result.statusCode ≠ some n then
        Except.error
          { code := RequiemErrorCode.InvalidStatusCode
            message := "Received invalid status code from \"" ++
              result.requestedUrl ++ "\": " ++ statusCodeStr result.statusCode ++
              " (expected " ++ toString n ++ ")"
            req := some req
            res := some result }
      else Except.ok result
    | some (ThrowOnErrorOpt.bool b) =>
      match result.statusCode with
      | some sc =>
        if b = true ∧ 400 ≤ sc then
          Except.error
            { code := RequiemErrorCode.InvalidStatusCode
              message := "Received invalid status code from \"" ++
                result.requestedUrl ++ "\": " ++ toString sc
              req := some req
              res := some result }
        else Except.ok result
      | none => Except.ok result
    | none => Except.ok result

/-- C7: once the redirect resolver has settled on a final response, a numeric
`throwOnErrorResponse` policy fails with `InvalidStatusCode` unless the
final status equals the number exactly, with a message naming the observed
and the expected code; the policy `true` fails with `InvalidStatusCode` if
and only if the final status is at least 400, with a message naming only the
observed code; the policy `false` or an absent policy performs no
validation; failures carry the outbound request and the final response. -/
theorem throwOnErrorResponse_validation :
    ∀ (net : RequiemOptionsObject → IncomingMessage)
      (parseUrl : String → String → Option String)
      (req : RequiemRequest) (res : IncomingMessage)
      (options : RequiemOptionsObject) (result : RequiemResponse),
      followRedirects net parseUrl [req.requestedUrl]
          (createResponse res req.requestedUrl) options 0 = Except.ok result →
      ((∀ n : Nat, options.throwOnErrorResponse = some (ThrowOnErrorOpt.exact n) →
          responseHandler net parseUrl req res options =
            (if result.statusCode = some n then Except.ok result
             else Except.error
               { code := RequiemErrorCode.InvalidStatusCode
                 message := "Received invalid status code from \"" ++
                   result.requestedUrl ++ "\": " ++ statusCodeStr result.statusCode ++
                   " (expected " ++ toString n ++ ")"
                 req := some req
                 res := some result })) ∧
       (options.throwOnErrorResponse = some (ThrowOnErrorOpt.bool true) →
          ((∀ sc : Nat, result.statusCode = some sc →
              responseHandler net parseUrl req res options =
                (if 400 ≤ sc then
                   Except.error
                     { code := RequiemErrorCode.InvalidStatusCode
                       message := "Received invalid status code from \"" ++
                         result.requestedUrl ++ "\": " ++ toString sc
                       req := some req
                       res := some result }
                 else Except.ok result)) ∧
           (result.statusCode = none →
              responseHandler net parseUrl req res options = Except.ok result))) ∧
       ((options.throwOnErrorResponse = some (ThrowOnErrorOpt.bool false) ∨
           options.throwOnErrorResponse = none) →
          responseHandler net parseUrl req res options = Except.ok result)) := by
  intro net parseUrl req res options result hrun
  refine ⟨?_, ?_, ?_⟩
  · intro n hpol
    rw [responseHandler, hrun]
    dsimp only
    rw [hpol]
    dsimp only
    by_cases h : result.statusCode = some n
    · rw [if_pos h, if_neg (by simpa using h)]
    · rw [if_neg h, if_pos (by simpa using h)]
  · intro hpol
    constructor
    · intro sc hsc
      rw [responseHandler, hrun]
      dsimp only
      rw [hpol]
      dsimp only
      rw [hsc]
      dsimp only
      by_cases h : 400 ≤ sc
      · rw [if_pos h, if_pos ⟨rfl, h⟩]
      · rw [if_neg h, if_neg (by simp [h])]
    · intro hsc
      rw [responseHandler, hrun]
      dsimp only
      rw [hpol]
      dsimp only
      rw [hsc]
  · intro hpol
    rcases hpol with h | h
    · rw [responseHandler, hrun]
      dsimp only
      rw [h]
      dsimp only
      cases hx : result.statusCode with
      | none => rfl
      | some sc =>
        dsimp only
        rw [if_neg (by simp)]
    · rw [responseHandler, hrun]
      dsimp only
      rw [h]

/-- Witness for C7: a final `500` under policy `200` fails citing both codes;
under policy `true` it fails citing only `500`; with no policy it is
returned. -/
theorem throwOnErrorResponse_validation_witness :
    (responseHandler (fun _ => {}) (fun _ _ => none) { requestedUrl := "http://h/" }
        { statusCode := some 500 }
        { throwOnErrorResponse := some (ThrowOnErrorOpt.exact 200) } =
      Except.error
        { code := RequiemErrorCode.InvalidStatusCode
          message := "Received invalid status code from \"http://h/\": 500 (expected 200)"
          req := some { requestedUrl := "http://h/" }
          res := some { statusCode := some 500, location := none,
                        requestedUrl := "http://h/" } }) ∧
    (responseHandler (fun _ => {}) (fun _ _ => none) { requestedUrl := "http://h/" }
        { statusCode := some 500 }
        { throwOnErrorResponse := some (ThrowOnErrorOpt.bool true) } =
      Except.error
        { code := RequiemErrorCode.InvalidStatusCode
          message := "Received invalid status code from \"http://h/\": 500"
          req := some { requestedUrl := "http://h/" }
          res := some { statusCode := some 500, location := none,
                        requestedUrl := "http://h/" } }) ∧
    (responseHandler (fun _ => {}) (fun _ _ => none) { requestedUrl := "http://h/" }
        { statusCode := some 500 } {} =
      Except.ok { statusCode := some 500, location := none,
                  requestedUrl := "http://h/" }) := by
  refine ⟨?_, ?_, ?_⟩
  · have h := (throwOnErrorResponse_validation (fun _ => {}) (fun _ _ => none)
      { requestedUrl := "http://h/" } { statusCode := some 500 }
      { throwOnErrorResponse := some (ThrowOnErrorOpt.exact 200) }
      { statusCode := some 500, location := none, requestedUrl := "http://h/" }
      (followRedirects_stops_nonRedirect _ _ _ _ _ _ (by decide)
        (Or.inr (by decide)))).1 200 rfl
    rw [if_neg (by decide)] at h
    exact h
  · have h := ((throwOnErrorResponse_validation (fun _ => {}) (fun _ _ => none)
      { requestedUrl := "http://h/" } { statusCode := some 500 }
      { throwOnErrorResponse := some (ThrowOnErrorOpt.bool true) }
      { statusCode := some 500, location := none, requestedUrl := "http://h/" }
      (followRedirects_stops_nonRedirect _ _ _ _ _ _ (by decide)
        (Or.inr (by decide)))).2.1 rfl).1 500 rfl
    rw [if_pos (by decide)] at h
    exact h
  · exact (throwOnErrorResponse_validation (fun _ => {}) (fun _ _ => none)
      { requestedUrl := "http://h/" } { statusCode := some 500 } {}
      { statusCode := some 500, location := none, requestedUrl := "http://h/" }
      (followRedirects_stops_nonRedirect _ _ _ _ _ _ (by decide)
        (Or.inr (by decide)))).2.2 (Or.inr rfl)

/-- The header and body writes `sendRequest` performs on the request before
`req.end()`. -/
structure RequestTransmission where
  contentTypeHeader : Option String := none
  written : List String := []
  ended : Bool := false
deriving DecidableEq, Repr

/-- The body-writing section of `sendRequest(req, options)`: the `bodyJson`
presence check runs first — it sets the `Content-Type: application/json`
header and writes `JSON.stringify(options.bodyJson)`; only otherwise does a
present `body` get written raw; then `req.end()` is called. -/
def sendRequestTransmission (options : RequiemOptionsObject) : RequestTransmission :=
  match options.bodyJson with
  | some v =>
    { contentTypeHeader := some "application/json"
      written := [Json.stringify v]
      ended := true }
  | none =>
    match options.body with
    | some b => { written := [b], ended := true }
    | none => { ended := true }

/-- C8: whenever `bodyJson` is set — even when `body` is also set —
`sendRequest` sets the `Content-Type` header to `application/json` and the
transmitted body is exactly the JSON serialization of the `bodyJson` value;
no raw `body` bytes are written. -/
theorem bodyJson_sets_json_content_type_and_body
    (options : RequiemOptionsObject) (v : Json)
    (h : options.bodyJson = some v) :
    sendRequestTransmission options =
      { contentTypeHeader := some "application/json"
        written := [Json.stringify v]
        ended := true } := by
  rw [sendRequestTransmission, h]

/-- Witness for C8: posting `bodyJson: {hello: "world"}` together with a raw
`body` transmits only the serialization `{"hello":"world"}` under the JSON
content type. -/
theorem bodyJson_sets_json_content_type_and_body_witness :
    sendRequestTransmission
        { body := some "raw bytes"
          bodyJson := some (Json.obj [("hello", Json.str "world")]) } =
      { contentTypeHeader := some "application/json"
        written := ["\x7b\"hello\":\"world\"\x7d"]
        ended := true } := by
  have h := bodyJson_sets_json_content_type_and_body
    { body := some "raw bytes"
      bodyJson := some (Json.obj [("hello", Json.str "world")]) }
    (Json.obj [("hello", Json.str "world")]) rfl
  rw [h]
  rfl

/-- The observable result of `createRequest(options)`: the state of the
caller's options object after the call (`optionsObj.method = optionsObj.method
|| 'GET'` assigns to the very object the caller passed in — for an object
argument, `getObjectionsObject` returns the same reference), the stripped
copy handed to `http.request`/`https.request`, and the outcome. -/
structure CreateRequestResult where
  callerOptions : RequiemOptionsObject
  httpOptions : RequiemOptionsObject
  result : Except RequiemError RequiemRequest

/-- `createRequest(options)`.  `buildUrl` abstracts the try-block over the
external URL collaborator (`new URL(options.url)` for the url form, else
`formatUrl`): it yields the absolute URL string, or `none` when parsing
throws, in which case `InvalidUrl` is raised.  The rest destructuring drops
`followRedirects`/`throwOnErrorResponse` into a fresh copy, and `body`/
`bodyJson` are deleted from that copy only. -/
def createRequest (buildUrl : RequiemOptionsObject → Option String)
    (options : RequiemOptions) : CreateRequestResult :=
  let optionsObj := getObjectionsObject options
  let optionsObj :=
    { optionsObj with
      method :=
        match optionsObj.method with
        | some m => if m = "" then some "GET" else some m
        | none => some "GET" }
  let reqOptions :=
    { optionsObj with
      followRedirects := none
      throwOnErrorResponse := none
      body := none
      bodyJson := none }
  match buildUrl optionsObj with
  | none =>
    { callerOptions := optionsObj
      httpOptions := reqOptions
      result := Except.error
        { code := RequiemErrorCode.InvalidUrl
          message := "URL could not be formatted properly" } }
  | some urlStr =>
    { callerOptions := optionsObj
      httpOptions := reqOptions
      result := Except.ok { requestedUrl := urlStr } }

/-- Counterexample to C9 as stated: `createRequest` on a caller-supplied
object without a `method` field leaves the caller's object changed — its
`method` has become `GET` — so the library does mutate a caller-supplied
options object in place. -/
theorem createRequest_mutates_caller_options_cex :
    (createRequest (fun _ => some "http://example.com/")
        (RequiemOptions.obj { url := some "http://example.com/" })).callerOptions ≠
      { url := some "http://example.com/" } := by
  intro h
  have hm := congrArg RequiemOptionsObject.method h
  simp [createRequest, getObjectionsObject] at hm

/-- C9 (amended): the method defaulting of `createRequest` is applied to the
caller's own options object (its `method` becomes `GET` when previously
absent or empty, and the object is untouched when a nonempty method was
already set), and only the `method` field is affected: the strip of `body`,
`bodyJson`, `followRedirects` and `throwOnErrorResponse` happens on the
separate copy handed to the transport, leaving those fields of the caller's
object intact. -/
theorem createRequest_mutation_scope
    (buildUrl : RequiemOptionsObject → Option String)
    (o : RequiemOptionsObject) :
    ((createRequest buildUrl (RequiemOptions.obj o)).callerOptions =
      { o with
        method :=
          match o.method with
          | some m => if m = "" then some "GET" else some m
          | none => some "GET" }) ∧
    ((createRequest buildUrl (RequiemOptions.obj o)).callerOptions.body = o.body ∧
     (createRequest buildUrl (RequiemOptions.obj o)).callerOptions.bodyJson = o.bodyJson ∧
     (createRequest buildUrl (RequiemOptions.obj o)).callerOptions.followRedirects =
       o.followRedirects ∧
     (createRequest buildUrl (RequiemOptions.obj o)).callerOptions.throwOnErrorResponse =
       o.throwOnErrorResponse) ∧
    ((createRequest buildUrl (RequiemOptions.obj o)).httpOptions =
      { (createRequest buildUrl (RequiemOptions.obj o)).callerOptions with
        followRedirects := none
        throwOnErrorResponse := none
        body := none
        bodyJson := none }) ∧
    (∀ m : String, o.method = some m → m ≠ "" →
      (createRequest buildUrl (RequiemOptions.obj o)).callerOptions = o) := by
  have h1 : (createRequest buildUrl (RequiemOptions.obj o)).callerOptions =
      { o with
        method :=
          match o.method with
          | some m => if m = "" then some "GET" else some m
          | none => some "GET" } := by
    rcases hb : buildUrl
        { o with
          method :=
            match o.method with
            | some m => if m = "" then some "GET" else some m
            | none => some "GET" } with _ | urlStr <;>
      simp [createRequest, getObjectionsObject, hb]
  have h3 : (createRequest buildUrl (RequiemOptions.obj o)).httpOptions =
      { (createRequest buildUrl (RequiemOptions.obj o)).callerOptions with
        followRedirects := none
        throwOnErrorResponse := none
        body := none
        bodyJson := none } := by
    rcases hb : buildUrl
        { o with
          method :=
            match o.method with
            | some m => if m = "" then some "GET" else some m
            | none => some "GET" } with _ | urlStr <;>
      simp [createRequest, getObjectionsObject, hb]
  refine ⟨h1, ⟨?_, ?_, ?_, ?_⟩, h3, ?_⟩
  · rw [h1]
  · rw [h1]
  · rw [h1]
  · rw [h1]
  · intro m hm hne
    rw [h1, hm]
    dsimp only
    rw [if_neg hne, ← hm]

/-- Witness for C9 (amended): evaluated on an object carrying every
orchestration field and no method. -/
theorem createRequest_mutation_scope_witness :
    ((createRequest (fun _ => some "http://example.com/")
        (RequiemOptions.obj
          { url := some "http://example.com/"
            body := some "b"
            followRedirects := some (FollowRedirectsOpt.max 2)
            throwOnErrorResponse := some (ThrowOnErrorOpt.bool true) })).callerOptions =
      { url := some "http://example.com/"
        body := some "b"
        followRedirects := some (FollowRedirectsOpt.max 2)
        throwOnErrorResponse := some (ThrowOnErrorOpt.bool true)
        method := some "GET" }) ∧
    ((createRequest (fun _ => some "http://example.com/")
        (RequiemOptions.obj
          { url := some "http://example.com/"
            method := some "POST" })).callerOptions =
      { url := some "http://example.com/", method := some "POST" }) := by
  constructor
  · have h := (createRequest_mutation_scope (fun _ => some "http://example.com/")
      { url := some "http://example.com/"
        body := some "b"
        followRedirects := some (FollowRedirectsOpt.max 2)
        throwOnErrorResponse := some (ThrowOnErrorOpt.bool true) }).1
    rw [h]
  · exact (createRequest_mutation_scope (fun _ => some "http://example.com/")
      { url := some "http://example.com/", method := some "POST" }).2.2.2
      "POST" rfl (by decide)

/-- The terminal event of a response stream: Node emits `end` once the body
completes; after an `error` event the `end` event does not fire. -/
inductive StreamTerminal where
  | ended : StreamTerminal
  | errored (e : String) : StreamTerminal
deriving DecidableEq, Repr

/-- The body events delivered by a response stream during buffered
consumption: the ordered `data` chunks followed by the terminal event. -/
structure ResponseStream where
  chunks : List String
  terminal : StreamTerminal
deriving DecidableEq, Repr

/-- `RequiemResponseWithBody`: the response with the buffered body attached. -/
structure RequiemResponseWithBody where
  response : RequiemResponse
  body : String
deriving DecidableEq, Repr

/-- The buffered-body promise of `requestBody` after `await request(options)`
has yielded `res`: the executor installs only `data` and `end` handlers and
receives only a `resolve` continuation — there is no rejection path, and no
`error` handler is installed here.  On `end` it settles with the ordered
concatenation (`Buffer.concat`) of the pushed chunks; after a stream `error`
the promise never settles (`none`). -/
def requestBodyOutcome (res : RequiemResponse) (stream : ResponseStream) :
    Option RequiemResponseWithBody :=
  match stream.terminal with
  | StreamTerminal.ended =>
    some { response := res, body := String.join stream.chunks }
  | StreamTerminal.errored _ => none

/-- The one-shot settlement of the upstream `sendRequest` promise, whose
`reject` the source wired to the response's `error` event
(`res.on('error', reject)`): rejecting is a no-op once the promise is
settled.  By the time `requestBody` consumes the body, `await
request(options)` has already resolved that promise with the response. -/
def settleReject (p : Option (Except String RequiemResponse)) (e : String) :
    Option (Except String RequiemResponse) :=
  match p with
  | some x => some x
  | none => some (Except.error e)

/-- Counterexample to C10 as stated: a stream error during buffered
consumption does not propagate to the caller — the buffered-body promise
never settles, and the already-settled upstream promise absorbs the `reject`
without turning into the error — so the error is lost rather than delivered
through the upstream error path. -/
theorem requestBody_stream_error_lost_cex :
    requestBodyOutcome { statusCode := some 200, requestedUrl := "http://h/" }
        { chunks := ["par"], terminal := StreamTerminal.errored "boom" } = none ∧
    settleReject
        (some (Except.ok { statusCode := some 200, requestedUrl := "http://h/" }))
        "boom" =
      some (Except.ok { statusCode := some 200, requestedUrl := "http://h/" }) ∧
    settleReject
        (some (Except.ok { statusCode := some 200, requestedUrl := "http://h/" }))
        "boom" ≠
      some (Except.error "boom") := by
  refine ⟨rfl, rfl, ?_⟩
  intro h
  injection h with h
  exact Except.noConfusion h

/-- C10 (amended): buffered-body mode resolves with the ordered
concatenation of all received chunks exactly when the stream signals
completion, and never rejects on its own (it has no rejection path); a
stream error arriving before the upstream promise settles does propagate
through that promise's rejection, but an error during buffered consumption
is delivered to the already-settled upstream promise, where rejecting is a
no-op: the error is dropped and the buffered-body promise never settles. -/
theorem requestBody_buffering_and_error_drop :
    (∀ (res : RequiemResponse) (stream : ResponseStream),
      stream.terminal = StreamTerminal.ended →
      requestBodyOutcome res stream =
        some { response := res, body := String.join stream.chunks }) ∧
    (∀ (res : RequiemResponse) (stream : ResponseStream) (e : String),
      stream.terminal = StreamTerminal.errored e →
      requestBodyOutcome res stream = none) ∧
    (∀ (res : RequiemResponse) (e : String),
      settleReject (some (Except.ok res)) e = some (Except.ok res)) ∧
    (∀ e : String, settleReject none e = some (Except.error e)) := by
  refine ⟨?_, ?_, ?_, ?_⟩
  · intro res stream h
    rw [requestBodyOutcome, h]
  · intro res stream e h
    rw [requestBodyOutcome, h]
  · intro res e
    rfl
  · intro e
    rfl

/-- Witness for C10 (amended): a two-chunk stream that completes buffers to
the concatenation; an erroring stream yields no settlement while the settled
upstream promise keeps its value; an unsettled promise still rejects. -/
theorem requestBody_buffering_and_error_drop_witness :
    (requestBodyOutcome { statusCode := some 200, requestedUrl := "http://h/" }
        { chunks := ["hello ", "world"], terminal := StreamTerminal.ended } =
      some { response := { statusCode := some 200, requestedUrl := "http://h/" }
             body := String.join ["hello ", "world"] }) ∧
    (requestBodyOutcome { statusCode := some 200, requestedUrl := "http://h/" }
        { chunks := ["hello "], terminal := StreamTerminal.errored "reset" } =
      none) ∧
    (settleReject
        (some (Except.ok { statusCode := some 200, requestedUrl := "http://h/" }))
        "reset" =
      some (Except.ok { statusCode := some 200, requestedUrl := "http://h/" })) ∧
    (settleReject none "reset" = some (Except.error "reset")) :=
  ⟨requestBody_buffering_and_error_drop.1
      { statusCode := some 200, requestedUrl := "http://h/" }
      { chunks := ["hello ", "world"], terminal := StreamTerminal.ended } rfl,
    requestBody_buffering_and_error_drop.2.1
      { statusCode := some 200, requestedUrl := "http://h/" }
      { chunks := ["hello "], terminal := StreamTerminal.errored "reset" } "reset" rfl,
    requestBody_buffering_and_error_drop.2.2.1
      { statusCode := some 200, requestedUrl := "http://h/" } "reset",
    requestBody_buffering_and_error_drop.2.2.2 "reset"⟩
